import Mathlib

/-!
Verification development for the network-management-system repository.

The Python modules relevant to the checked properties are embedded
shallowly below:

* `src/python/dns/dns_blocker.py`      → namespace `NMS.DNS`
* `src/python/blocking/schedules.py`   → namespace `NMS.Sched`
* `src/python/blocking/categories.py`  → namespace `NMS.Blk`
* `src/python/blocking/blocker.py`     → namespace `NMS.Blk`
* `src/python/alerts/keywords.py`      → namespace `NMS.KW`
* `src/python/arp/arp_gateway.py`      → namespace `NMS.ARP`
* `src/python/https/transparent_proxy.py` → namespace `NMS.Proxy`
* `src/python/database/db_manager.py`  → namespace `NMS.DB`

Modelling conventions: Python strings are `String` (ASCII in all relevant
data; `str.lower` is `String.toLower`, `str.strip` is `String.trim`);
Python sets are `Finset` where the set algebra matters and ordered `List`s
where the source iterates; dictionaries iterated with `.values()`/`.items()`
are association lists in insertion order; the ambient clock
(`datetime.now()`) is threaded as an explicit argument; side effects
(sending packets, sleeping, callbacks, file writes) are reified as explicit
action traces where a claim mentions them and dropped where no claim does.
Compiled `re` patterns stored in objects are embedded as their search
functions (`String → Bool` / `String → Option String`).
-/

namespace NMS

/-! ### String helpers (Python `in`, `rstrip`, ...) -/

/-- Is `p` a leading segment of `l`? (helper for Python's substring test). -/
def prefOf : List Char → List Char → Bool
  | [], _ => true
  | _ :: _, [] => false
  | a :: as, b :: bs => a == b && prefOf as bs

/-- Does `needle` occur contiguously inside `haystack`? -/
def subIn (needle : List Char) : List Char → Bool
  | [] => needle.isEmpty
  | h :: t => prefOf needle (h :: t) || subIn needle t

/-- Python's `needle in haystack` on strings. -/
def strContains (needle haystack : String) : Bool :=
  subIn needle.toList haystack.toList

/-- Python's `s.rstrip('.')`: drop all trailing dots. -/
def rstripDots (s : String) : String :=
  ⟨(s.toList.reverse.dropWhile (· == '.')).reverse⟩

/-- Python's `s.lower()` (character-wise; list-based so that it reduces). -/
def pyLower (s : String) : String :=
  ⟨s.toList.map Char.toLower⟩

/-- Python's `s.strip()`: remove leading and trailing whitespace. -/
def pyStrip (s : String) : String :=
  ⟨((s.toList.dropWhile Char.isWhitespace).reverse.dropWhile
      Char.isWhitespace).reverse⟩

/-- Python's `s.startswith(p)`. -/
def pyStarts (s p : String) : Bool :=
  prefOf p.toList s.toList

/-- Python's `s.endswith(p)`. -/
def pyEnds (s p : String) : Bool :=
  prefOf p.toList.reverse s.toList.reverse

/-- Python's `s[n:]`. -/
def pyDrop (s : String) (n : Nat) : String :=
  ⟨s.toList.drop n⟩

/-- Code-point lexicographic order on character lists. -/
def lexLt : List Char → List Char → Bool
  | _, [] => false
  | [], _ :: _ => true
  | a :: as, b :: bs =>
      decide (a.toNat < b.toNat) || (a == b && lexLt as bs)

/-- Python's `a < b` on strings (code-point lexicographic). -/
def strLt (a b : String) : Bool :=
  lexLt a.toList b.toList

/-! ## DNS blocker — `src/python/dns/dns_blocker.py` -/

namespace DNS

/-- One question of the scapy `DNSQR` layer (the fields the blocker touches). -/
structure DNSQuestion where
  qname : String
  qtype : Nat
deriving DecidableEq, Repr

/-- One resource record of the scapy `DNSRR` layer. -/
structure DNSRec where
  rrname : String
  rtype : Nat
  ttl : Nat
  rdata : String
deriving DecidableEq, Repr

/-- The scapy `DNS` layer: header fields, question, answers.
scapy constructor defaults (used by the response builders): `opcode = 0`,
`an` empty. -/
structure DNSLayer where
  id : Nat
  qr : Nat
  opcode : Nat
  aa : Nat
  rcode : Nat
  qd : Option DNSQuestion
  an : List DNSRec
deriving DecidableEq, Repr

/-- An IP/UDP/DNS packet as the blocker sees it. -/
structure DNSPacket where
  ip_src : String
  ip_dst : String
  sport : Nat
  dport : Nat
  dns : DNSLayer
deriving DecidableEq, Repr

/-- Embeds `DNSBlocker.__init__` state: `blocked_domains` is a Python set whose
entries were lowered on entry (`set(d.lower() for d in ...)`); modelled as a
duplicate-free list. -/
structure DNSBlocker where
  interface : String
  blocked_domains : List String
  redirect_ip : String
  block_mode : String
deriving DecidableEq, Repr

/-- Embeds `DNSBlocker.add_domain`: `self.blocked_domains.add(domain.lower())`. -/
def DNSBlocker.add_domain (b : DNSBlocker) (domain : String) : DNSBlocker :=
  let d := pyLower domain
  if b.blocked_domains.contains d then b
  else { b with blocked_domains := b.blocked_domains ++ [d] }

/-- Embeds `DNSBlocker.is_blocked`: exact set membership, strict-subdomain suffix,
or `*.`-wildcard suffix (`blocked[1:]` keeps the leading dot). -/
def DNSBlocker.is_blocked (b : DNSBlocker) (domain : String) : Bool :=
  let d := rstripDots (pyLower domain)
  b.blocked_domains.contains d ||
    b.blocked_domains.any (fun bl =>
      pyEnds d ("." ++ bl) || (pyStarts bl "*." && pyEnds d (pyDrop bl 1)))

/-- Embeds `DNSBlocker._create_nxdomain_response`: swap the IP endpoints, answer
from port 53 to the query's source port, copy `id` and the question, set
`qr = 1`, `aa = 1`, `rcode = 3`; all remaining scapy `DNS` fields keep their
defaults, in particular `opcode = 0` and no answers. -/
def DNSBlocker.create_nxdomain_response (packet : DNSPacket) : DNSPacket :=
  { ip_src := packet.ip_dst
    ip_dst := packet.ip_src
    sport := 53
    dport := packet.sport
    dns := { id := packet.dns.id, qr := 1, opcode := 0, aa := 1, rcode := 3,
             qd := packet.dns.qd, an := [] } }

/-- Embeds `DNSBlocker._create_redirect_response`: like NXDOMAIN but `rcode = 0`
with a single A record for the redirect address, TTL 300. -/
def DNSBlocker.create_redirect_response (b : DNSBlocker) (packet : DNSPacket) :
    DNSPacket :=
  { ip_src := packet.ip_dst
    ip_dst := packet.ip_src
    sport := 53
    dport := packet.sport
    dns := { id := packet.dns.id, qr := 1, opcode := 0, aa := 1, rcode := 0,
             qd := packet.dns.qd,
             an := match packet.dns.qd with
                   | some q => [{ rrname := q.qname, rtype := 1, ttl := 300,
                                  rdata := b.redirect_ip }]
                   | none => [] } }

/-- Embeds `DNSBlocker._process_packet` restricted to its packet-level outcome:
`some reply` when a forged reply is sent on the wire (its `ip_dst` is the
destination address), `none` when the packet is ignored or mode is `drop`.
Logging and counters are elided. -/
def DNSBlocker.process_packet (b : DNSBlocker) (packet : DNSPacket) :
    Option DNSPacket :=
  if packet.dns.qr != 0 then none
  else match packet.dns.qd with
  | none => none
  | some q =>
    let domain := rstripDots q.qname
    if !(b.is_blocked domain) then none
    else if b.block_mode == "nxdomain" then
      some (DNSBlocker.create_nxdomain_response packet)
    else if b.block_mode == "redirect" then
      some (b.create_redirect_response packet)
    else none

/-- The matching rule exactly as the specification words it, per blocklist
entry `e`, applied to the query name after the blocker's normalisation
(lowercasing and stripping trailing dots): equality (case-insensitive),
strict subdomain (`.e` suffix), or wildcard entry `*.suffix` occurring as
the name's ending. -/
def specEntryMatch (q e : String) : Bool :=
  let qn := rstripDots (pyLower q)
  qn == pyLower e || pyEnds qn ("." ++ e) ||
    (pyStarts e "*." && pyEnds qn (pyDrop e 1))

/-- A concrete blocker used to instantiate the DNS theorems. -/
def dnsBlockerEx : DNSBlocker :=
  { interface := "eth0", blocked_domains := ["ads.example"],
    redirect_ip := "0.0.0.0", block_mode := "nxdomain" }

/-- A blocked standard query carrying a non-zero opcode (scapy accepts any
opcode; `_process_packet` only inspects `qr` and `qd`). -/
def dnsPacketOp1 : DNSPacket :=
  { ip_src := "192.168.1.23", ip_dst := "8.8.8.8", sport := 5353, dport := 53,
    dns := { id := 0x1234, qr := 0, opcode := 1, aa := 0, rcode := 0,
             qd := some { qname := "ads.example.", qtype := 1 }, an := [] } }

end DNS

end NMS

namespace NMS.DNS

/-- C5: a query name is classified as blocked iff some blocklist entry
matches it by case-insensitive equality, strict-subdomain suffix, or
`*.suffix` wildcard ending — for blocklists whose entries are lowercase,
which `__init__` and `add_domain` guarantee by construction. -/
theorem is_blocked_iff_specEntryMatch (b : DNSBlocker) (q : String)
    (he : ∀ e ∈ b.blocked_domains, pyLower e = e) :
    b.is_blocked q = true ↔ ∃ e ∈ b.blocked_domains, specEntryMatch q e = true := by
  unfold DNSBlocker.is_blocked specEntryMatch
  simp only [List.contains_eq_any_beq, Bool.or_eq_true, List.any_eq_true,
    beq_iff_eq]
  constructor
  · rintro (⟨e, heS, hde⟩ | ⟨e, heS, (hend | hwild)⟩)
    · exact ⟨e, heS, Or.inl (Or.inl (by rw [he e heS]; exact hde))⟩
    · exact ⟨e, heS, Or.inl (Or.inr hend)⟩
    · exact ⟨e, heS, Or.inr hwild⟩
  · rintro ⟨e, heS, ((hde | hend) | hwild)⟩
    · exact Or.inl ⟨e, heS, by rw [he e heS] at hde; exact hde⟩
    · exact Or.inr ⟨e, heS, Or.inl hend⟩
    · exact Or.inr ⟨e, heS, Or.inr hwild⟩

/-- C5 witness: the equivalence instantiated on a concrete blocker and a
mixed-case query with a trailing dot. -/
theorem is_blocked_iff_specEntryMatch_witness :
    dnsBlockerEx.is_blocked "SUB.ads.example." = true ↔
      ∃ e ∈ dnsBlockerEx.blocked_domains,
        specEntryMatch "SUB.ads.example." e = true :=
  is_blocked_iff_specEntryMatch dnsBlockerEx "SUB.ads.example." (by
    intro e hmem
    simp only [dnsBlockerEx, List.mem_singleton] at hmem
    subst hmem
    rfl)

/-- C4 counterexample: the forged NXDOMAIN reply does *not* copy the
query's opcode — a blocked query with opcode 1 is answered with opcode 0. -/
theorem nxdomain_opcode_not_copied :
    (dnsBlockerEx.process_packet dnsPacketOp1).map (fun r => r.dns.opcode) =
        some 0 ∧
      dnsPacketOp1.dns.opcode = 1 := by
  constructor
  · rfl
  · rfl

/-- C4 (amended): for every blocked query processed in nxdomain mode, the
synthesized reply copies the transaction id and the question unchanged, has
QR=1, AA=1, RCODE=3, opcode fixed to 0 (scapy's default, not copied from
the query), no answer records, and is addressed to the querying device
(destination IP = query's source IP, destination port = query's source
port). -/
theorem nxdomain_reply_shape (b : DNSBlocker) (p : DNSPacket) (q : DNSQuestion)
    (hmode : b.block_mode = "nxdomain") (hqr : p.dns.qr = 0)
    (hqd : p.dns.qd = some q)
    (hbl : b.is_blocked (rstripDots q.qname) = true) :
    b.process_packet p = some (DNSBlocker.create_nxdomain_response p) ∧
    (DNSBlocker.create_nxdomain_response p).dns.id = p.dns.id ∧
    (DNSBlocker.create_nxdomain_response p).dns.qr = 1 ∧
    (DNSBlocker.create_nxdomain_response p).dns.aa = 1 ∧
    (DNSBlocker.create_nxdomain_response p).dns.rcode = 3 ∧
    (DNSBlocker.create_nxdomain_response p).dns.opcode = 0 ∧
    (DNSBlocker.create_nxdomain_response p).dns.qd = p.dns.qd ∧
    (DNSBlocker.create_nxdomain_response p).dns.an = [] ∧
    (DNSBlocker.create_nxdomain_response p).ip_dst = p.ip_src ∧
    (DNSBlocker.create_nxdomain_response p).dport = p.sport := by
  refine ⟨?_, rfl, rfl, rfl, rfl, rfl, rfl, rfl, rfl, rfl⟩
  simp [DNSBlocker.process_packet, hmode, hqr, hqd, hbl]

/-- C4 witness: the amended reply-shape theorem applied to a concrete
blocked packet. -/
theorem nxdomain_reply_shape_witness :
    dnsBlockerEx.process_packet dnsPacketOp1 =
        some (DNSBlocker.create_nxdomain_response dnsPacketOp1) ∧
      (DNSBlocker.create_nxdomain_response dnsPacketOp1).dns.id =
        dnsPacketOp1.dns.id ∧
      (DNSBlocker.create_nxdomain_response dnsPacketOp1).dns.qr = 1 ∧
      (DNSBlocker.create_nxdomain_response dnsPacketOp1).dns.aa = 1 ∧
      (DNSBlocker.create_nxdomain_response dnsPacketOp1).dns.rcode = 3 ∧
      (DNSBlocker.create_nxdomain_response dnsPacketOp1).dns.opcode = 0 ∧
      (DNSBlocker.create_nxdomain_response dnsPacketOp1).dns.qd =
        dnsPacketOp1.dns.qd ∧
      (DNSBlocker.create_nxdomain_response dnsPacketOp1).dns.an = [] ∧
      (DNSBlocker.create_nxdomain_response dnsPacketOp1).ip_dst =
        dnsPacketOp1.ip_src ∧
      (DNSBlocker.create_nxdomain_response dnsPacketOp1).dport =
        dnsPacketOp1.sport :=
  nxdomain_reply_shape dnsBlockerEx dnsPacketOp1
    { qname := "ads.example.", qtype := 1 } rfl rfl rfl (by decide)

end NMS.DNS

namespace NMS.Sched

/-! ## Time-based schedules — `src/python/blocking/schedules.py` -/

/-- The value of a parsed `YYYY-MM-DD` date / of `datetime.date()`. -/
structure PyDate where
  year : Nat
  month : Nat
  day : Nat
deriving DecidableEq, Repr

/-- Embeds `date` comparison `a < b`. -/
def PyDate.lt (a b : PyDate) : Bool :=
  a.year < b.year ||
    (a.year == b.year &&
      (a.month < b.month || (a.month == b.month && a.day < b.day)))

/-- The parts of a `datetime` that `Schedule` evaluation reads: the date,
`weekday()` (0 = Monday), and `time()` as seconds since midnight. -/
structure PyDateTime where
  date : PyDate
  weekday : Nat
  timeSec : Nat
deriving DecidableEq, Repr

/-- Embeds `TimeRange`: a start/end wall-clock pair. -/
structure TimeRange where
  start_hour : Nat
  start_minute : Nat
  end_hour : Nat
  end_minute : Nat
deriving DecidableEq, Repr

/-- Embeds `TimeRange.contains`: inclusive containment, with overnight ranges
(`start > end`) treated as the two modular spans. -/
def TimeRange.containsT (r : TimeRange) (t : Nat) : Bool :=
  let s := (r.start_hour * 60 + r.start_minute) * 60
  let e := (r.end_hour * 60 + r.end_minute) * 60
  if s ≤ e then decide (s ≤ t) && decide (t ≤ e)
  else decide (t ≥ s) || decide (t ≤ e)

/-- Embeds `ScheduleType`. -/
inductive ScheduleType where
  | always_block
  | never_block
  | time_range
  | allow_range
  | custom
deriving DecidableEq, Repr

/-- A `Schedule`. `categories`/`domains` are Python sets (modelled as
lists), `time_ranges` is the per-weekday dict (association list), the date
window holds the parsed dates, `priority` is a Python int. -/
structure Schedule where
  id : String
  name : String
  schedule_type : ScheduleType
  enabled : Bool := true
  categories : List String := []
  domains : List String := []
  time_ranges : List (Nat × List TimeRange) := []
  start_date : Option PyDate := none
  end_date : Option PyDate := none
  priority : Int := 0
deriving DecidableEq, Repr

/-- Embeds `self.time_ranges.get(day, [])`. -/
def Schedule.dayRanges (s : Schedule) (day : Nat) : List TimeRange :=
  match s.time_ranges.lookup day with
  | some rs => rs
  | none => []

/-- Embeds `Schedule.is_active_now` with the ambient clock passed explicitly. -/
def Schedule.is_active_now (s : Schedule) (now : PyDateTime) : Bool :=
  if !s.enabled then false
  else if (match s.start_date with
           | some sd => PyDate.lt now.date sd
           | none => false) then false
  else if (match s.end_date with
           | some ed => PyDate.lt ed now.date
           | none => false) then false
  else match s.schedule_type with
  | .always_block => true
  | .never_block => false
  | .time_range =>
      (s.dayRanges now.weekday).any (fun r => r.containsT now.timeSec)
  | .allow_range =>
      !((s.dayRanges now.weekday).any (fun r => r.containsT now.timeSec))
  | .custom => false

/-- Embeds `Schedule.should_block`: inactive schedules never block; otherwise a
nonempty `domain` argument matches the schedule's domain set by equality or
`.suffix`, a nonempty `category` argument matches its category set
case-insensitively, and a schedule with no targeted domains and no targeted
categories applies to everything. -/
def Schedule.should_block (s : Schedule) (domain category : String)
    (now : PyDateTime) : Bool :=
  if !s.is_active_now now then false
  else
    let dl := pyLower domain
    if !(domain == "") &&
        s.domains.any (fun b => dl == b || pyEnds dl ("." ++ b)) then true
    else if !(category == "") &&
        s.categories.any (fun c => pyLower c == pyLower category) then true
    else if s.domains.isEmpty && s.categories.isEmpty then true
    else false

/-- Stable insertion of `x` into a priority-descending list: `x` passes over
strictly higher priorities and lands before equal ones that were inserted
earlier in `foldr` order — together with `sortByPriorityDesc` this is
extensionally the Python `sorted(..., key=priority, reverse=True)` (Python's
sort is stable, and a stable sort's output is unique). -/
def insDesc (x : Schedule) : List Schedule → List Schedule
  | [] => [x]
  | y :: ys => if x.priority < y.priority then y :: insDesc x ys
               else x :: y :: ys

/-- Embeds `sorted(self.schedules.values(), key=priority, reverse=True)`. -/
def sortByPriorityDesc : List Schedule → List Schedule
  | [] => []
  | x :: xs => insDesc x (sortByPriorityDesc xs)

/-- Embeds `ScheduleManager`: the schedules dict in insertion order. -/
structure ScheduleManager where
  schedules : List Schedule
deriving DecidableEq, Repr

/-- Embeds `ScheduleManager.should_block`: walk the priority-sorted schedules,
return `(True, id)` for the first that blocks, else `(False, None)`. -/
def ScheduleManager.should_block (m : ScheduleManager)
    (domain category : String) (now : PyDateTime) : Bool × Option String :=
  match (sortByPriorityDesc m.schedules).find?
      (fun s => s.should_block domain category now) with
  | some s => (true, some s.id)
  | none => (false, none)

/-! Spec-side definitions for the tie-breaking claim. -/

/-- Stable insertion under the key claimed by the spec:
(priority descending, id lexicographically ascending). -/
def insDescLex (x : Schedule) : List Schedule → List Schedule
  | [] => [x]
  | y :: ys =>
      if x.priority < y.priority ||
          (x.priority == y.priority && strLt y.id x.id) then
        y :: insDescLex x ys
      else x :: y :: ys

/-- Sort under the spec's claimed key (priority desc, id lex asc). -/
def sortByPriorityDescLex : List Schedule → List Schedule
  | [] => []
  | x :: xs => insDescLex x (sortByPriorityDescLex xs)

/-- What `ScheduleManager.should_block` would return if priority ties broke
by lexicographic schedule id, as the spec claims. -/
def lexShouldBlock (m : ScheduleManager) (domain category : String)
    (now : PyDateTime) : Bool × Option String :=
  match (sortByPriorityDescLex m.schedules).find?
      (fun s => s.should_block domain category now) with
  | some s => (true, some s.id)
  | none => (false, none)

/-- Take `x` unless `b` has strictly higher priority: the selection step
of the earliest-listed-maximal-priority characterisation. -/
def betterOpt (x : Schedule) : Option Schedule → Option Schedule
  | none => some x
  | some b => if x.priority < b.priority then some b else some x

/-- Among schedules satisfying `p`, the one with maximal priority, with
ties going to the schedule listed first (insertion order). -/
def specPick (p : Schedule → Bool) : List Schedule → Option Schedule
  | [] => none
  | x :: xs => if p x then betterOpt x (specPick p xs) else specPick p xs

/-- Concrete data for the schedule theorems: two enabled untargeted
always-block schedules with equal priority, inserted as "b" then "a". -/
def schedB : Schedule :=
  { id := "b", name := "B", schedule_type := .always_block }

/-- Equal-priority schedule with the lexicographically smaller id,
inserted second. -/
def schedA : Schedule :=
  { id := "a", name := "A", schedule_type := .always_block }

/-- A manager holding `schedB` before `schedA` (dict insertion order). -/
def mgrBA : ScheduleManager := { schedules := [schedB, schedA] }

/-- An arbitrary concrete instant (Monday 17:00). -/
def nowEx : PyDateTime :=
  { date := { year := 2026, month := 1, day := 5 }, weekday := 0,
    timeSec := 61200 }

/-- Sorting key relation of the Python sort: descending priority. -/
def prioGE (a b : Schedule) : Prop := b.priority ≤ a.priority

theorem insDesc_perm (x : Schedule) :
    ∀ m : List Schedule, List.Perm (insDesc x m) (x :: m)
  | [] => .refl _
  | y :: ys => by
    rw [insDesc]
    split
    · exact ((insDesc_perm x ys).cons y).trans (List.Perm.swap x y ys)
    · exact .refl _

theorem sortByPriorityDesc_perm :
    ∀ l : List Schedule, List.Perm (sortByPriorityDesc l) l
  | [] => .refl _
  | x :: xs =>
    (insDesc_perm x (sortByPriorityDesc xs)).trans
      ((sortByPriorityDesc_perm xs).cons x)

theorem pairwise_insDesc (x : Schedule) :
    ∀ m : List Schedule, m.Pairwise prioGE → (insDesc x m).Pairwise prioGE
  | [], _ => by simp [insDesc, prioGE]
  | y :: ys, hp => by
    rcases List.pairwise_cons.mp hp with ⟨hy, hys⟩
    rw [insDesc]
    split
    · next hxy =>
      refine List.pairwise_cons.mpr ⟨?_, pairwise_insDesc x ys hys⟩
      intro z hz
      rcases List.mem_cons.mp ((insDesc_perm x ys).mem_iff.mp hz) with rfl | hz
      · exact le_of_lt hxy
      · exact hy z hz
    · next hxy =>
      refine List.pairwise_cons.mpr ⟨?_, hp⟩
      intro z hz
      rcases List.mem_cons.mp hz with rfl | hz
      · exact not_lt.mp hxy
      · exact le_trans (hy z hz) (not_lt.mp hxy)

theorem pairwise_sortByPriorityDesc :
    ∀ l : List Schedule, (sortByPriorityDesc l).Pairwise prioGE
  | [] => .nil
  | x :: xs => pairwise_insDesc x _ (pairwise_sortByPriorityDesc xs)

/-- The key step: finding in a priority-sorted list after a stable insertion
is the "keep the earlier element on ties" selection. -/
theorem find?_insDesc (p : Schedule → Bool) (x : Schedule) :
    ∀ m : List Schedule, m.Pairwise prioGE →
      (insDesc x m).find? p =
        if p x then betterOpt x (m.find? p) else m.find? p
  | [], _ => by
    cases hx : p x <;> simp [insDesc, List.find?, hx, betterOpt]
  | y :: ys, hp => by
    rcases List.pairwise_cons.mp hp with ⟨hy, hys⟩
    rw [insDesc]
    split
    · next hxy =>
      cases hpy : p y
      · rw [List.find?_cons_of_neg _ (by simp [hpy]),
          find?_insDesc p x ys hys,
          List.find?_cons_of_neg _ (by simp [hpy])]
      · cases hx : p x <;>
          simp [List.find?_cons_of_pos _ hpy, betterOpt, hxy, hx]
    · next hxy =>
      cases hx : p x
      · rw [List.find?_cons_of_neg _ (by simp [hx])]
        simp [hx]
      · rw [List.find?_cons_of_pos _ hx]
        simp only [hx, if_true]
        cases hfind : (y :: ys).find? p
        · simp [betterOpt]
        · next b =>
          have hb : b ∈ y :: ys := List.mem_of_find?_eq_some hfind
          have hble : b.priority ≤ y.priority := by
            rcases List.mem_cons.mp hb with rfl | hb
            · exact le_refl _
            · exact hy b hb
          have hnb : ¬ x.priority < b.priority :=
            not_lt.mpr (le_trans hble (not_lt.mp hxy))
          simp [betterOpt, hnb]

/-- First match in the priority-sorted list = earliest-listed match of
maximal priority. -/
theorem find?_sortByPriorityDesc (p : Schedule → Bool) :
    ∀ l : List Schedule, (sortByPriorityDesc l).find? p = specPick p l
  | [] => rfl
  | x :: xs => by
    rw [sortByPriorityDesc,
      find?_insDesc p x _ (pairwise_sortByPriorityDesc xs),
      find?_sortByPriorityDesc p xs]
    rfl

end NMS.Sched

namespace NMS.Sched

/-- C8 counterexample: Python's `sorted` is stable, so equal-priority ties
keep dict insertion order rather than lexicographic id order — with
schedules inserted as id "b" then id "a" (equal priority, both matching),
the manager reports "b", while the claimed (priority desc, id lex) order
would report "a". -/
theorem tie_break_not_lexicographic :
    mgrBA.should_block "" "" nowEx = (true, some "b") ∧
      lexShouldBlock mgrBA "" "" nowEx = (true, some "a") ∧
      mgrBA.should_block "" "" nowEx ≠ lexShouldBlock mgrBA "" "" nowEx := by
  refine ⟨rfl, rfl, ?_⟩
  decide

/-- C8 (amended): schedules are considered in descending priority and equal
priorities keep the manager's insertion order (Python's stable sort); hence
the reported id is that of the earliest-inserted matching schedule of
maximal priority among the matching ones (`specPick`). -/
theorem should_block_reports_earliest_max_priority (m : ScheduleManager)
    (domain category : String) (now : PyDateTime) :
    m.should_block domain category now =
      match specPick (fun s => s.should_block domain category now)
          m.schedules with
      | some s => (true, some s.id)
      | none => (false, none) := by
  unfold ScheduleManager.should_block
  rw [find?_sortByPriorityDesc]

/-- C10: an enabled schedule with empty domain and category sets blocks
every domain and category whenever it is active, and the manager then
reports a block for any input. -/
theorem untargeted_active_schedule_blocks_all (m : ScheduleManager)
    (s : Schedule) (domain category : String) (now : PyDateTime)
    (hmem : s ∈ m.schedules) (_hen : s.enabled = true)
    (hdom : s.domains = []) (hcat : s.categories = [])
    (hact : s.is_active_now now = true) :
    s.should_block domain category now = true ∧
      (m.should_block domain category now).1 = true := by
  have h1 : s.should_block domain category now = true := by
    simp [Schedule.should_block, hact, hdom, hcat]
  refine ⟨h1, ?_⟩
  have hmem' : s ∈ sortByPriorityDesc m.schedules :=
    (sortByPriorityDesc_perm m.schedules).mem_iff.mpr hmem
  have hsome : ((sortByPriorityDesc m.schedules).find?
      (fun t => t.should_block domain category now)).isSome :=
    List.find?_isSome.mpr ⟨s, hmem', h1⟩
  obtain ⟨t, ht⟩ := Option.isSome_iff_exists.mp hsome
  unfold ScheduleManager.should_block
  rw [ht]

/-- C10 witness: the untargeted always-block schedule `schedB` blocks a
concrete gaming domain and the manager reports a block. -/
theorem untargeted_active_schedule_blocks_all_witness :
    schedB.should_block "steampowered.com" "gaming" nowEx = true ∧
      (mgrBA.should_block "steampowered.com" "gaming" nowEx).1 = true :=
  untargeted_active_schedule_blocks_all mgrBA schedB "steampowered.com"
    "gaming" nowEx (by decide) rfl rfl rfl (by decide)

end NMS.Sched

namespace NMS.Blk

open NMS.Sched

/-! ## Categories and the unified blocking engine —
`src/python/blocking/categories.py`, `src/python/blocking/blocker.py` -/

/-- Embeds `BlockCategory`. -/
inductive BlockCategory where
  | adult | gambling | social_media | gaming | streaming | dating
  | violence | drugs | weapons | malware | phishing | advertising
  | cryptocurrency | vpn_proxy | file_sharing | messaging | custom
deriving DecidableEq, Repr

/-- Embeds `BlockCategory.value` (the enum's string value). -/
def BlockCategory.value : BlockCategory → String
  | .adult => "adult"
  | .gambling => "gambling"
  | .social_media => "social_media"
  | .gaming => "gaming"
  | .streaming => "streaming"
  | .dating => "dating"
  | .violence => "violence"
  | .drugs => "drugs"
  | .weapons => "weapons"
  | .malware => "malware"
  | .phishing => "phishing"
  | .advertising => "advertising"
  | .cryptocurrency => "cryptocurrency"
  | .vpn_proxy => "vpn_proxy"
  | .file_sharing => "file_sharing"
  | .messaging => "messaging"
  | .custom => "custom"

/-- Embeds `CategoryDefinition` (the fields `check` reads: member domains and
content keywords). -/
structure CategoryDefinition where
  name : String
  severity : String
  domains : List String
  keywords : List String

/-- The module-level `CATEGORY_DEFINITIONS` table, abstracted as a
parameter: an ordered (category, definition) association as Python's dict
iteration yields it.  The evaluation-order claims hold for every table, so
the concrete entries are not transcribed. -/
abbrev CategoryDefs := List (BlockCategory × CategoryDefinition)

/-- Embeds `check_domain_category`: every category one of whose member domains
equals the (lowered) domain or is a `.`-suffix of it, in table order. -/
def check_domain_category (defs : CategoryDefs) (domain : String) :
    List BlockCategory :=
  let d := pyLower domain
  defs.filterMap (fun cd =>
    if cd.2.domains.any (fun b => d == b || pyEnds d ("." ++ b)) then
      some cd.1
    else none)

/-- Embeds `check_url_keywords`: every category one of whose keywords occurs in
`url + " " + content` lowered, in table order. -/
def check_url_keywords (defs : CategoryDefs) (url content : String) :
    List BlockCategory :=
  let combined := pyLower (url ++ " " ++ content)
  defs.filterMap (fun cd =>
    if cd.2.keywords.any (fun k => strContains (pyLower k) combined) then
      some cd.1
    else none)

/-- Embeds `BlockRule` (a custom rule). -/
structure BlockRule where
  id : String
  rule_type : String
  value : String
  enabled : Bool := true
  reason : String := ""
deriving DecidableEq, Repr

/-- Embeds `BlockDecision` (the `timestamp` field, `datetime.now()`, is elided). -/
structure BlockDecision where
  should_block : Bool
  reason : String
  rule_id : Option String := none
  rule_type : Option String := none
  category : Option String := none
  schedule_id : Option String := none
deriving DecidableEq, Repr

/-- A compiled URL regex: its source text plus its `search` function
(the compiled `re.Pattern` object is embedded as the function it computes,
truthiness of `pattern.search(url)`). -/
structure UrlPattern where
  pattern : String
  search : String → Bool

/-- Embeds `BlockingEngine` state: rule stores are Python sets (`Finset`) or
insertion-ordered lists, exactly as in `__init__`; the engine's
`schedule_manager` is carried as its schedules list.  Config-file I/O and
block callbacks are elided. -/
structure BlockingEngine where
  blocked_domains : Finset String
  blocked_categories : Finset BlockCategory
  blocked_keywords : List String
  url_patterns : List UrlPattern
  custom_rules : List BlockRule
  whitelisted_domains : Finset String
  schedules : List Sched.Schedule

/-- Embeds `BlockingEngine._is_whitelisted`. -/
def BlockingEngine.is_whitelisted (e : BlockingEngine) (domain : String) :
    Bool :=
  decide (∃ w ∈ e.whitelisted_domains,
    domain = w ∨ pyEnds domain ("." ++ w) = true)

/-- Embeds `BlockingEngine._check_domain_block`. -/
def BlockingEngine.check_domain_block (e : BlockingEngine) (domain : String) :
    Bool :=
  decide (∃ b ∈ e.blocked_domains,
    domain = b ∨ pyEnds domain ("." ++ b) = true)

/-- Embeds `BlockingEngine._check_url_patterns`: the first pattern whose `search`
hits the URL, returning its source text. -/
def BlockingEngine.check_url_patterns (e : BlockingEngine) (url : String) :
    Option String :=
  e.url_patterns.findSome? (fun p => if p.search url then some p.pattern
                                     else none)

/-- Embeds `BlockingEngine._check_keywords`: the first blocked keyword occurring in
`url + " " + content` lowered. -/
def BlockingEngine.check_keywords (e : BlockingEngine) (url content : String) :
    Option String :=
  let combined := pyLower (url ++ " " ++ content)
  e.blocked_keywords.find? (fun k => strContains (pyLower k) combined)

/-- Python truthiness of an `Optional[str]` result, as `check` tests it
(`if matched_pattern:` / `if matched_keyword:`): `None` and the empty
string are both falsy, so a match whose value is `""` is treated like no
match at all. -/
def truthyStr : Option String → Option String
  | some s => if s == "" then none else some s
  | none => none

/-- The schedule step of `check` (the body of `if check_schedule:`):
first try each matched category against the schedule manager, then the
domain alone. -/
def scheduleStep (e : BlockingEngine) (domain : String)
    (categories : List BlockCategory) (now : PyDateTime) :
    Option BlockDecision :=
  match categories.findSome? (fun c =>
      let r := ScheduleManager.should_block ⟨e.schedules⟩ domain c.value now
      if r.1 then some (c, r.2) else none) with
  | some (c, sid) =>
      some { should_block := true,
             reason := "Blocked by schedule: " ++ sid.getD "None",
             rule_type := some "schedule",
             schedule_id := sid,
             category := some c.value }
  | none =>
      let r := ScheduleManager.should_block ⟨e.schedules⟩ domain "" now
      if r.1 then
        some { should_block := true,
               reason := "Blocked by schedule: " ++ r.2.getD "None",
               rule_type := some "schedule",
               schedule_id := r.2 }
      else none

/-- Embeds `BlockingEngine.check`: the if/elif early-return chain of the source,
with the ambient clock explicit.  Reason strings that interpolate runtime
values keep their fixed prefix.  The URL-pattern and keyword steps guard
with Python string truthiness (`if matched_pattern:`, `if matched_keyword:`),
so a returned empty string — an empty-source pattern, or an empty blocked
keyword (which always matches and, being the helper's first match, shadows
every later keyword) — skips the block and lets the remaining rules
decide; this is rendered by `truthyStr`. -/
def BlockingEngine.check (defs : CategoryDefs) (e : BlockingEngine)
    (domain url content : String) (check_schedule : Bool)
    (now : PyDateTime) : BlockDecision :=
  let domain := pyStrip (pyLower domain)
  let url := pyStrip (pyLower url)
  if e.is_whitelisted domain then
    { should_block := false, reason := "Domain is whitelisted" }
  else if e.check_domain_block domain then
    { should_block := true, reason := "Domain blocked: " ++ domain,
      rule_type := some "domain" }
  else match truthyStr (e.check_url_patterns url) with
  | some pat =>
      { should_block := true, reason := "URL pattern matched: " ++ pat,
        rule_type := some "url_pattern" }
  | none =>
    let categories := check_domain_category defs domain
    match categories.find? (fun c => decide (c ∈ e.blocked_categories)) with
    | some c =>
        { should_block := true, reason := "Category blocked: " ++ c.value,
          rule_type := some "category", category := some c.value }
    | none =>
      match (if check_schedule then scheduleStep e domain categories now
             else none) with
      | some d => d
      | none =>
        match (check_url_keywords defs url content).find?
            (fun c => decide (c ∈ e.blocked_categories)) with
        | some c =>
            { should_block := true,
              reason := "Keyword matched in " ++ c.value,
              rule_type := some "keyword", category := some c.value }
        | none =>
          match truthyStr (e.check_keywords url content) with
          | some kw =>
              { should_block := true, reason := "Keyword blocked: " ++ kw,
                rule_type := some "keyword" }
          | none =>
            match e.custom_rules.find? (fun r =>
                r.enabled && r.rule_type == "domain" &&
                  domain == pyLower r.value) with
            | some r =>
                { should_block := true,
                  reason := if r.reason == "" then
                              "Custom rule: " ++ r.value
                            else r.reason,
                  rule_type := some "custom", rule_id := some r.id }
            | none => { should_block := false, reason := "Allowed" }

/-- First-match-wins evaluation of an ordered rule list, the evaluation
discipline the specification describes. -/
def firstRule : List (Option BlockDecision) → BlockDecision → BlockDecision
  | [], d => d
  | some r :: _, _ => r
  | none :: rest, d => firstRule rest d

/-- The claimed nine-step rule pipeline for `check`, written from the
spec's words: whitelist (allow), blocklist domain, URL regex, enabled
category, schedules, URL keywords of blocked categories, generic blocked
keywords, custom domain rules, default allow — first match wins, and each
rule fires on *any* match.  The program deviates from this on the
URL-pattern and keyword steps (its truthiness guards skip an empty matched
value); this pipeline is kept as stated to exhibit that deviation. -/
def checkSpec (defs : CategoryDefs) (e : BlockingEngine)
    (domain url content : String) (check_schedule : Bool)
    (now : PyDateTime) : BlockDecision :=
  let domain := pyStrip (pyLower domain)
  let url := pyStrip (pyLower url)
  firstRule
    [ if e.is_whitelisted domain then
        some { should_block := false, reason := "Domain is whitelisted" }
      else none,
      if e.check_domain_block domain then
        some { should_block := true, reason := "Domain blocked: " ++ domain,
               rule_type := some "domain" }
      else none,
      (e.check_url_patterns url).map (fun pat =>
        { should_block := true, reason := "URL pattern matched: " ++ pat,
          rule_type := some "url_pattern" }),
      ((check_domain_category defs domain).find?
          (fun c => decide (c ∈ e.blocked_categories))).map (fun c =>
        { should_block := true, reason := "Category blocked: " ++ c.value,
          rule_type := some "category", category := some c.value }),
      if check_schedule then
        scheduleStep e domain (check_domain_category defs domain) now
      else none,
      ((check_url_keywords defs url content).find?
          (fun c => decide (c ∈ e.blocked_categories))).map (fun c =>
        { should_block := true, reason := "Keyword matched in " ++ c.value,
          rule_type := some "keyword", category := some c.value }),
      (e.check_keywords url content).map (fun kw =>
        { should_block := true, reason := "Keyword blocked: " ++ kw,
          rule_type := some "keyword" }),
      (e.custom_rules.find? (fun r =>
          r.enabled && r.rule_type == "domain" &&
            domain == pyLower r.value)).map (fun r =>
        { should_block := true,
          reason := if r.reason == "" then "Custom rule: " ++ r.value
                    else r.reason,
          rule_type := some "custom", rule_id := some r.id }) ]
    { should_block := false, reason := "Allowed" }

/-- The nine-step pipeline as the program actually evaluates it: identical
to `checkSpec` except that the URL-pattern and generic-keyword rules fire
only when the helper's match result is truthy (a non-empty string), per
the source's `if matched_pattern:` / `if matched_keyword:` guards. -/
def checkSpecTruthy (defs : CategoryDefs) (e : BlockingEngine)
    (domain url content : String) (check_schedule : Bool)
    (now : PyDateTime) : BlockDecision :=
  let domain := pyStrip (pyLower domain)
  let url := pyStrip (pyLower url)
  firstRule
    [ if e.is_whitelisted domain then
        some { should_block := false, reason := "Domain is whitelisted" }
      else none,
      if e.check_domain_block domain then
        some { should_block := true, reason := "Domain blocked: " ++ domain,
               rule_type := some "domain" }
      else none,
      (truthyStr (e.check_url_patterns url)).map (fun pat =>
        { should_block := true, reason := "URL pattern matched: " ++ pat,
          rule_type := some "url_pattern" }),
      ((check_domain_category defs domain).find?
          (fun c => decide (c ∈ e.blocked_categories))).map (fun c =>
        { should_block := true, reason := "Category blocked: " ++ c.value,
          rule_type := some "category", category := some c.value }),
      if check_schedule then
        scheduleStep e domain (check_domain_category defs domain) now
      else none,
      ((check_url_keywords defs url content).find?
          (fun c => decide (c ∈ e.blocked_categories))).map (fun c =>
        { should_block := true, reason := "Keyword matched in " ++ c.value,
          rule_type := some "keyword", category := some c.value }),
      (truthyStr (e.check_keywords url content)).map (fun kw =>
        { should_block := true, reason := "Keyword blocked: " ++ kw,
          rule_type := some "keyword" }),
      (e.custom_rules.find? (fun r =>
          r.enabled && r.rule_type == "domain" &&
            domain == pyLower r.value)).map (fun r =>
        { should_block := true,
          reason := if r.reason == "" then "Custom rule: " ++ r.value
                    else r.reason,
          rule_type := some "custom", rule_id := some r.id }) ]
    { should_block := false, reason := "Allowed" }

/-- Embeds `BlockingEngine.block_domain` (the config-file save is elided). -/
def BlockingEngine.block_domain (e : BlockingEngine) (domain : String) :
    BlockingEngine :=
  let d := pyStrip (pyLower domain)
  { e with blocked_domains := insert d e.blocked_domains }

/-- Embeds `BlockingEngine.unblock_domain`. -/
def BlockingEngine.unblock_domain (e : BlockingEngine) (domain : String) :
    BlockingEngine :=
  let d := pyStrip (pyLower domain)
  { e with blocked_domains := e.blocked_domains.erase d }

/-- An engine that already blocks `a.com` and has no other rules. -/
def engineEx : BlockingEngine :=
  { blocked_domains := {"a.com"}, blocked_categories := ∅,
    blocked_keywords := [], url_patterns := [], custom_rules := [],
    whitelisted_domains := ∅, schedules := [] }

/-- An engine with no rules at all. -/
def engineEmpty : BlockingEngine :=
  { blocked_domains := ∅, blocked_categories := ∅, blocked_keywords := [],
    url_patterns := [], custom_rules := [], whitelisted_domains := ∅,
    schedules := [] }

/-- An engine whose keyword list starts with the empty keyword — reachable
through the public API (`add_keyword("")` appends, then
`add_keyword("porn")`) or the config file. -/
def engineKw : BlockingEngine :=
  { blocked_domains := ∅, blocked_categories := ∅,
    blocked_keywords := ["", "porn"], url_patterns := [], custom_rules := [],
    whitelisted_domains := ∅, schedules := [] }

/-- C1 counterexample: first-match does not decide.  With
`blocked_keywords = ["", "porn"]` and a URL containing the non-empty
blocked keyword "porn", the generic-keyword rule (7) matches, yet `check`
returns allow: `_check_keywords` returns its first match `""` (shadowing
"porn"), the truthy-test `if matched_keyword:` is false on `""`, and no
later rule fires — while the claimed pipeline blocks. -/
theorem empty_keyword_breaks_first_match :
    "porn" ∈ engineKw.blocked_keywords ∧ "porn" ≠ "" ∧
      strContains (pyLower "porn")
        (pyLower (pyStrip (pyLower "http://porn.example/") ++ " " ++ "")) =
        true ∧
      (BlockingEngine.check [] engineKw "" "http://porn.example/" "" true
        Sched.nowEx).should_block = false ∧
      (checkSpec [] engineKw "" "http://porn.example/" "" true
        Sched.nowEx).should_block = true ∧
      BlockingEngine.check [] engineKw "" "http://porn.example/" "" true
          Sched.nowEx ≠
        checkSpec [] engineKw "" "http://porn.example/" "" true
          Sched.nowEx := by
  refine ⟨by decide, by decide, by decide, by decide, by decide, by decide⟩

/-- C1 (amended): `check(domain, url, content)` evaluates its rules in the
claimed order with the first match deciding and the whitelist
short-circuiting everything, except that the URL-regex rule (3) and the
generic blocked-keyword rule (7) fire only when the matched value is a
non-empty string: Python's truthiness guards treat an empty matched
pattern source or an empty matched keyword as no match, skipping the block
(and, the helper having already returned its first match, shadowing any
later keyword) so that the remaining rules decide.  The early-return chain
equals first-match evaluation of this truthiness-aware pipeline for every
category table, engine state, input and clock. -/
theorem check_eq_checkSpecTruthy (defs : CategoryDefs) (e : BlockingEngine)
    (domain url content : String) (now : PyDateTime) :
    BlockingEngine.check defs e domain url content true now =
      checkSpecTruthy defs e domain url content true now := by
  dsimp only [BlockingEngine.check, checkSpecTruthy]
  repeat' split <;> simp_all [firstRule, -List.find?_eq_none]

/-- C7 counterexample: blocking then unblocking a domain that the policy
already blocked does not restore the starting state — the domain ends up
unblocked. -/
theorem block_unblock_loses_existing_domain :
    (engineEx.block_domain "a.com").unblock_domain "a.com" ≠ engineEx :=
  fun h => absurd (congrArg BlockingEngine.blocked_domains h) (by decide)

/-- C7 (amended): `block_domain(d); unblock_domain(d)` restores the policy
exactly, provided the normalised domain was not already in the blocked set
(set `add` followed by `discard` loses a pre-existing member); all other
policy fields are untouched either way. -/
theorem block_unblock_roundtrip (e : BlockingEngine) (d : String)
    (h : pyStrip (pyLower d) ∉ e.blocked_domains) :
    (e.block_domain d).unblock_domain d = e := by
  cases e
  simp [BlockingEngine.block_domain, BlockingEngine.unblock_domain,
    Finset.erase_insert h]

/-- C7 witness: the round-trip on a domain not previously blocked. -/
theorem block_unblock_roundtrip_witness :
    (engineEmpty.block_domain "x.com").unblock_domain "x.com" =
      engineEmpty :=
  block_unblock_roundtrip engineEmpty "x.com" (by decide)

end NMS.Blk

namespace NMS.KW

/-! ## Alert keywords — `src/python/alerts/keywords.py` -/

/-- Embeds `MatchType`. -/
inductive MatchType where
  | exact | contains | regex | fuzzy
deriving DecidableEq, Repr

/-- Embeds `AlertSeverity`. -/
inductive AlertSeverity where
  | low | medium | high | critical
deriving DecidableEq, Repr

/-- The leetspeak substitution classes of `Keyword._fuzzy_match`. -/
def leetClass (c : Char) : List Char :=
  if c = 'a' then ['a', '@', '4']
  else if c = 'e' then ['e', '3']
  else if c = 'i' then ['i', '1', '!']
  else if c = 'o' then ['o', '0']
  else if c = 's' then ['s', '$', '5']
  else if c = 't' then ['t', '7', '+']
  else if c = 'l' then ['l', '1']
  else if c = 'b' then ['b', '8']
  else [c]

/-- Match the fuzzy pattern at the start of the text, returning the
consumed characters (`re.IGNORECASE`: compare lowered text characters
against the lowercase classes). -/
def fuzzyAt : List Char → List Char → Option (List Char)
  | [], _ => some []
  | _ :: _, [] => none
  | c :: cs, t :: ts =>
      if (leetClass c).contains t.toLower then
        (fuzzyAt cs ts).map (t :: ·)
      else none

/-- Embeds `re.search` of the fuzzy pattern: first position where it matches. -/
def fuzzySearchAux (pat : List Char) : List Char → Option (List Char)
  | [] => fuzzyAt pat []
  | t :: ts =>
      match fuzzyAt pat (t :: ts) with
      | some m => some m
      | none => fuzzySearchAux pat ts

/-- A monitored `Keyword`.  `compiled_search` embeds the stored
`_compiled_pattern.search` for the exact/regex kinds (`None`, i.e. never
consulted, for contains/fuzzy). -/
structure Keyword where
  id : String
  word : String
  match_type : MatchType := .contains
  severity : AlertSeverity := .medium
  enabled : Bool := true
  case_sensitive : Bool := false
  context_words : List String := []
  exclude_words : List String := []
  compiled_search : String → Option String := fun _ => none

/-- Embeds `Keyword._fuzzy_match`. -/
def Keyword.fuzzy_match (k : Keyword) (text : String) : Option String :=
  (fuzzySearchAux (pyLower k.word).toList text.toList).map (fun l => ⟨l⟩)

/-- Embeds `Keyword.matches`: disabled keywords never match; any exclusion word
occurring as a case-insensitive substring suppresses the match; otherwise
dispatch on the match kind. -/
def Keyword.matches (k : Keyword) (text : String) : Bool × Option String :=
  if !k.enabled then (false, none)
  else if k.exclude_words.any
      (fun ex => strContains (pyLower ex) (pyLower text)) then (false, none)
  else match k.match_type with
  | .exact =>
      match k.compiled_search text with
      | some m => (true, some m)
      | none => (false, none)
  | .contains =>
      let st := if k.case_sensitive then text else pyLower text
      let sw := if k.case_sensitive then k.word else pyLower k.word
      if strContains sw st then (true, some k.word) else (false, none)
  | .regex =>
      match k.compiled_search text with
      | some m => (true, some m)
      | none => (false, none)
  | .fuzzy =>
      match k.fuzzy_match text with
      | some m => (true, some m)
      | none => (false, none)

/-- Embeds `Keyword.get_severity_with_context`: if any context word occurs
(case-insensitively) in the text, raise the severity one level
(low→medium→high→critical, critical stays); otherwise the base severity. -/
def Keyword.get_severity_with_context (k : Keyword) (text : String) :
    AlertSeverity :=
  if k.context_words.isEmpty then k.severity
  else match k.context_words.find?
      (fun cw => strContains (pyLower cw) (pyLower text)) with
  | some _ =>
      match k.severity with
      | .low => .medium
      | .medium => .high
      | .high => .critical
      | .critical => .critical
  | none => k.severity

/-- The keyword of the claimed scenario: `suicide`, contains matching,
base severity critical, context words "how to"/"method", exclusion words
"prevention"/"hotline". -/
def kwSuicide : Keyword :=
  { id := "sh_suicide", word := "suicide", match_type := .contains,
    severity := .critical, context_words := ["how to", "method"],
    exclude_words := ["prevention", "hotline"] }

/-- C9: for the `suicide` keyword (contains, base critical, context
"how to"/"method", exclusions "prevention"/"hotline"): any text containing
an exclusion word as a case-insensitive substring never matches (so
"searching suicide hotline" yields no match); "how to commit suicide"
matches with final severity critical; and context words raise the severity
exactly one level, never past critical (low→medium, medium→high,
high→critical, critical→critical on this very text). -/
theorem keyword_exclusion_and_context_elevation :
    (∀ text ex, ex ∈ kwSuicide.exclude_words →
        strContains (pyLower ex) (pyLower text) = true →
        kwSuicide.matches text = (false, none)) ∧
      kwSuicide.matches "searching suicide hotline" = (false, none) ∧
      kwSuicide.matches "how to commit suicide" = (true, some "suicide") ∧
      kwSuicide.get_severity_with_context "how to commit suicide" =
        .critical ∧
      ({ kwSuicide with severity := .low }).get_severity_with_context
        "how to commit suicide" = .medium ∧
      ({ kwSuicide with severity := .medium }).get_severity_with_context
        "how to commit suicide" = .high ∧
      ({ kwSuicide with severity := .high }).get_severity_with_context
        "how to commit suicide" = .critical ∧
      (∀ text, kwSuicide.get_severity_with_context text = .critical) := by
  refine ⟨?_, by decide, by decide, by decide, by decide, by decide,
    by decide, ?_⟩
  case refine_2 =>
    intro text
    unfold Keyword.get_severity_with_context
    rw [if_neg (by decide)]
    cases kwSuicide.context_words.find?
        (fun cw => strContains (pyLower cw) (pyLower text)) <;> rfl
  intro text ex hmem hsub
  have hany : kwSuicide.exclude_words.any
      (fun e => strContains (pyLower e) (pyLower text)) = true :=
    List.any_eq_true.mpr ⟨ex, hmem, hsub⟩
  unfold Keyword.matches
  rw [hany]
  rfl

/-- C9 witness: exclusion suppression applied to a concrete text
containing "prevention". -/
theorem keyword_exclusion_and_context_elevation_witness :
    kwSuicide.matches "suicide prevention resources" = (false, none) :=
  keyword_exclusion_and_context_elevation.1 "suicide prevention resources"
    "prevention" (by decide) (by decide)

end NMS.KW

namespace NMS.ARP

/-! ## ARP gateway — `src/python/arp/arp_gateway.py` -/

/-- Embeds `TargetDevice`. -/
structure TargetDevice where
  ip : String
  mac : String
  hostname : Option String := none
  last_seen : Option String := none
  active : Bool := true
deriving DecidableEq, Repr

/-- The fields of an `Ether`/`ARP` reply frame the engine constructs. -/
structure ArpFrame where
  ether_dst : String
  op : Nat
  pdst : String
  hwdst : String
  psrc : String
  hwsrc : String
deriving DecidableEq, Repr

/-- Observable actions of the engine, in program order: sending a frame on
the wire (`sendp`), sleeping (`time.sleep`, milliseconds), disabling IP
forwarding, and invoking the status callback. -/
inductive ArpAction where
  | sendFrame (f : ArpFrame)
  | sleepMs (ms : Nat)
  | disableForwarding
  | emitEvent (ty : String)
deriving DecidableEq, Repr

/-- Embeds `ARPGateway` state at the time `stop`/`remove_target` runs. -/
structure ARPGateway where
  interface : String
  gateway_ip : String
  gateway_mac : String
  our_mac : String
  targets : List (String × TargetDevice)
  spoof_interval : Nat
deriving DecidableEq, Repr

/-- The first restorative frame of `_restore_target`: tell the target the
real gateway MAC. -/
def restore_to_target_frame (g : ARPGateway) (tip tmac : String) : ArpFrame :=
  { ether_dst := tmac, op := 2, pdst := tip, hwdst := tmac,
    psrc := g.gateway_ip, hwsrc := g.gateway_mac }

/-- The second restorative frame of `_restore_target`: tell the gateway the
real target MAC. -/
def restore_to_gateway_frame (g : ARPGateway) (tip tmac : String) :
    ArpFrame :=
  { ether_dst := g.gateway_mac, op := 2, pdst := g.gateway_ip,
    hwdst := g.gateway_mac, psrc := tip, hwsrc := tmac }

/-- Embeds `ARPGateway._restore_target`: `sendp(..., count=3)` in each direction —
three copies of each frame, sent back to back (scapy's default inter-packet
gap is zero, so no sleep occurs between them). -/
def restore_target (g : ARPGateway) (tip tmac : String) : List ArpAction :=
  List.replicate 3 (.sendFrame (restore_to_target_frame g tip tmac)) ++
    List.replicate 3 (.sendFrame (restore_to_gateway_frame g tip tmac))

/-- Embeds `ARPGateway.stop` as the trace of actions it performs before
returning: restore every tracked target, disable IP forwarding, emit the
`stopped` event (stopping the spoof thread produces no frames). -/
def ARPGateway.stopTrace (g : ARPGateway) : List ArpAction :=
  (g.targets.map (fun p => restore_target g p.1 p.2.mac)).flatten ++
    [.disableForwarding, .emitEvent "stopped"]

/-- Embeds `ARPGateway.remove_target`: restore and drop the target if tracked;
returns the new state and the trace of actions. -/
def ARPGateway.remove_target (g : ARPGateway) (ip : String) :
    ARPGateway × List ArpAction :=
  match g.targets.lookup ip with
  | some t =>
      ({ g with targets := g.targets.filter (fun p => !(p.1 == ip)) },
        restore_target g ip t.mac ++ [.emitEvent "target_removed"])
  | none => (g, [])

/-- Does the trace pace consecutive wire frames by at least `ms`
milliseconds of sleeping?  `sawSend` tracks whether a frame was already
sent, `acc` the sleep accumulated since. -/
def pacedAux (ms : Nat) : Bool → Nat → List ArpAction → Bool
  | _, _, [] => true
  | sawSend, acc, .sleepMs n :: rest => pacedAux ms sawSend (acc + n) rest
  | sawSend, acc, .sendFrame _ :: rest =>
      if sawSend && decide (acc < ms) then false
      else pacedAux ms true 0 rest
  | sawSend, acc, .disableForwarding :: rest => pacedAux ms sawSend acc rest
  | sawSend, acc, .emitEvent _ :: rest => pacedAux ms sawSend acc rest

/-- Consecutive frames of the trace are separated by ≥ `ms` ms of sleep. -/
def pacedBy (ms : Nat) (trace : List ArpAction) : Bool :=
  pacedAux ms false 0 trace

/-- A concrete engine with one tracked target. -/
def gatewayEx : ARPGateway :=
  { interface := "eth0", gateway_ip := "192.168.1.1",
    gateway_mac := "cc:dd:ee:ff:00:22", our_mac := "11:22:33:44:55:66",
    targets := [("192.168.1.77",
      { ip := "192.168.1.77", mac := "aa:bb:cc:dd:ee:11" })],
    spoof_interval := 15 }

end NMS.ARP

namespace NMS.ARP

/-- C2 counterexample: `stop()` does send three restorative replies in each
direction for the active target, but the frames are emitted back to back —
no sleep separates consecutive restorative frames, so the claimed ≥ 50 ms
pacing is violated (the trace contains no sleep at all). -/
theorem restore_frames_not_paced :
    3 ≤ gatewayEx.stopTrace.count
        (.sendFrame (restore_to_target_frame gatewayEx "192.168.1.77"
          "aa:bb:cc:dd:ee:11")) ∧
      3 ≤ gatewayEx.stopTrace.count
        (.sendFrame (restore_to_gateway_frame gatewayEx "192.168.1.77"
          "aa:bb:cc:dd:ee:11")) ∧
      pacedBy 50 gatewayEx.stopTrace = false := by
  refine ⟨by decide, by decide, by decide⟩

/-- C2 (amended): for every tracked target, `stop()` sends at least three
restorative ARP replies in each direction (to the target asserting the true
gateway mapping and to the gateway asserting the true target mapping)
before it returns, and `remove_target(ip)` does the same for the removed
target — but the frames are not paced: they are sent back to back with no
inter-frame delay. -/
theorem stop_sends_three_restores_each_direction (g : ARPGateway)
    (ip : String) (t : TargetDevice) :
    ((ip, t) ∈ g.targets →
      3 ≤ g.stopTrace.count
          (.sendFrame (restore_to_target_frame g ip t.mac)) ∧
      3 ≤ g.stopTrace.count
          (.sendFrame (restore_to_gateway_frame g ip t.mac))) ∧
    (g.targets.lookup ip = some t →
      3 ≤ (g.remove_target ip).2.count
          (.sendFrame (restore_to_target_frame g ip t.mac)) ∧
      3 ≤ (g.remove_target ip).2.count
          (.sendFrame (restore_to_gateway_frame g ip t.mac))) := by
  have hrest : ∀ f : ArpFrame,
      (f = restore_to_target_frame g ip t.mac ∨
       f = restore_to_gateway_frame g ip t.mac) →
      3 ≤ (restore_target g ip t.mac).count (.sendFrame f) := by
    rintro f (rfl | rfl)
    · rw [restore_target, List.count_append, List.count_replicate_self]
      exact Nat.le_add_right 3 _
    · rw [restore_target, List.count_append, List.count_replicate_self]
      exact Nat.le_add_left 3 _
  have key : (ip, t) ∈ g.targets → ∀ f : ArpFrame,
      (f = restore_to_target_frame g ip t.mac ∨
       f = restore_to_gateway_frame g ip t.mac) →
      3 ≤ g.stopTrace.count (.sendFrame f) := by
    intro hmem f hf
    have h2 : restore_target g ip t.mac ∈
        g.targets.map (fun p => restore_target g p.1 p.2.mac) :=
      List.mem_map_of_mem _ hmem
    have h3 : (restore_target g ip t.mac).count (.sendFrame f) ≤
        ((g.targets.map (fun p =>
          restore_target g p.1 p.2.mac)).flatten).count (.sendFrame f) := by
      rw [List.count_flatten]
      exact List.le_sum_of_mem (List.mem_map_of_mem _ h2)
    calc 3 ≤ (restore_target g ip t.mac).count (.sendFrame f) := hrest f hf
      _ ≤ _ := h3
      _ ≤ g.stopTrace.count (.sendFrame f) := by
          rw [ARPGateway.stopTrace, List.count_append]
          exact Nat.le_add_right _ _
  constructor
  · intro hmem
    exact ⟨key hmem _ (Or.inl rfl), key hmem _ (Or.inr rfl)⟩
  · intro hlk
    have htr : (g.remove_target ip).2 =
        restore_target g ip t.mac ++ [.emitEvent "target_removed"] := by
      unfold ARPGateway.remove_target
      rw [hlk]
    rw [htr]
    refine ⟨?_, ?_⟩
    · rw [List.count_append]
      exact le_trans (hrest _ (Or.inl rfl)) (Nat.le_add_right _ _)
    · rw [List.count_append]
      exact le_trans (hrest _ (Or.inr rfl)) (Nat.le_add_right _ _)

/-- C2 witness: the restorative frame counts of `stop()` on the concrete
one-target engine. -/
theorem stop_sends_three_restores_witness :
    3 ≤ gatewayEx.stopTrace.count
        (.sendFrame (restore_to_target_frame gatewayEx "192.168.1.77"
          "aa:bb:cc:dd:ee:11")) ∧
      3 ≤ gatewayEx.stopTrace.count
        (.sendFrame (restore_to_gateway_frame gatewayEx "192.168.1.77"
          "aa:bb:cc:dd:ee:11")) :=
  (stop_sends_three_restores_each_direction gatewayEx "192.168.1.77"
    { ip := "192.168.1.77", mac := "aa:bb:cc:dd:ee:11" }).1 (by decide)

end NMS.ARP

namespace NMS.Proxy

/-! ## Transparent proxy interceptor —
`src/python/https/transparent_proxy.py` -/

/-- Embeds `TrafficCategory` of `traffic_parser.py`. -/
inductive TrafficCategory where
  | social_media | streaming | gaming | shopping | search | email | news
  | adult | messaging | education | productivity | finance | advertising
  | analytics | api | other
deriving DecidableEq, Repr

/-- The mitmproxy request fields the interceptor reads. -/
structure MitmRequest where
  host : String
  pretty_url : String
  content : String
deriving DecidableEq, Repr

/-- An in-flight mitmproxy `HTTPFlow` at request time. -/
structure MitmFlow where
  id : String
  request : MitmRequest
deriving DecidableEq, Repr

/-- Embeds `ProxyConfig` (the fields the request path reads). -/
structure ProxyConfig where
  block_list : Finset String
  category_blocks : Finset TrafficCategory
  keyword_alerts : List String

/-- The interceptor: its config plus the parser's behaviour.  The parser's
`_categorize_domain` (a table of compiled regexes) is embedded as the
function it computes, and `parse_mitmproxy_flow`'s possible failure as a
predicate. -/
structure TrafficInterceptor where
  config : ProxyConfig
  categorize : String → TrafficCategory
  parse_fails : MitmFlow → Bool

/-- Observable actions of the request hook and the surrounding framework:
killing the flow (`flow.kill()`), synthesizing a local response (never
performed by this addon, but the vocabulary the spec's claim needs),
tracking the flow, emitting a `FlowEvent`, opening the upstream
connection. -/
inductive ProxyAction where
  | killFlow
  | setLocalResponse (status : Nat)
  | trackFlow (id : String)
  | emitEvent (event_type : String) (flow_id : String)
  | openUpstream (id : String)
deriving DecidableEq, Repr

/-- Embeds `TrafficInterceptor._should_block`: some blocklist entry occurs as a
substring of the lowered host or lowered URL. -/
def TrafficInterceptor.should_block (it : TrafficInterceptor)
    (flow : MitmFlow) : Bool :=
  decide (∃ b ∈ it.config.block_list,
    strContains (pyLower b) (pyLower flow.request.host) = true ∨
      strContains (pyLower b) (pyLower flow.request.pretty_url) = true)

/-- Embeds `TrafficInterceptor._block_flow`: kill the flow and emit a `blocked`
event. -/
def block_flow_actions (flow : MitmFlow) : List ProxyAction :=
  [.killFlow, .emitEvent "blocked" flow.id]

/-- Embeds `TrafficInterceptor.request`: block on the blocklist, then on the
domain's category; otherwise track the flow and emit `request` (or `error`,
if parsing raises). -/
def TrafficInterceptor.requestHook (it : TrafficInterceptor)
    (flow : MitmFlow) : List ProxyAction :=
  if it.should_block flow then block_flow_actions flow
  else if decide (it.categorize flow.request.host ∈
      it.config.category_blocks) then block_flow_actions flow
  else
    .trackFlow flow.id ::
      (if it.parse_fails flow then [.emitEvent "error" flow.id]
       else [.emitEvent "request" flow.id])

/-- The request hook plus mitmproxy's framework behaviour: the upstream
connection is opened afterwards unless the hook killed the flow or set a
local response. -/
def handleRequest (it : TrafficInterceptor) (flow : MitmFlow) :
    List ProxyAction :=
  let acts := it.requestHook flow
  if acts.contains .killFlow ||
      acts.any (fun a => match a with
                         | .setLocalResponse _ => true
                         | _ => false) then acts
  else acts ++ [.openUpstream flow.id]

/-- A concrete interceptor blocking `bad.com`. -/
def interceptorEx : TrafficInterceptor :=
  { config := { block_list := {"bad.com"}, category_blocks := ∅,
                keyword_alerts := [] },
    categorize := fun _ => .other,
    parse_fails := fun _ => false }

/-- A concrete flow whose host is on the blocklist. -/
def flowEx : MitmFlow :=
  { id := "f1",
    request := { host := "bad.com", pretty_url := "https://bad.com/",
                 content := "" } }

/-- C3 counterexample: for a request the policy blocks, the proxy emits no
synthesized 403 (nor any locally set response): `_block_flow` calls
`flow.kill()`, which terminates the flow without a response. -/
theorem blocked_flow_gets_no_403 :
    interceptorEx.should_block flowEx = true ∧
      ProxyAction.setLocalResponse 403 ∉
        handleRequest interceptorEx flowEx := by
  refine ⟨by decide, by decide⟩

/-- C3 (amended): for every request the policy blocks (blocklist substring
match or blocked category), the proxy kills the flow instead of
synthesizing a 403 — the client connection is terminated with no locally
synthesized response of any status — the upstream connection is never
opened for that request, and a `blocked` event is emitted. -/
theorem blocked_flow_killed_no_upstream (it : TrafficInterceptor)
    (flow : MitmFlow)
    (hblock : it.should_block flow = true ∨
      it.categorize flow.request.host ∈ it.config.category_blocks) :
    handleRequest it flow = [.killFlow, .emitEvent "blocked" flow.id] ∧
      ProxyAction.killFlow ∈ handleRequest it flow ∧
      ProxyAction.emitEvent "blocked" flow.id ∈ handleRequest it flow ∧
      ProxyAction.openUpstream flow.id ∉ handleRequest it flow ∧
      ∀ s, ProxyAction.setLocalResponse s ∉ handleRequest it flow := by
  have hhook : it.requestHook flow =
      [.killFlow, .emitEvent "blocked" flow.id] := by
    rcases hblock with h | h
    · simp [TrafficInterceptor.requestHook, h, block_flow_actions]
    · simp [TrafficInterceptor.requestHook, block_flow_actions, h]
  have hall : handleRequest it flow =
      [.killFlow, .emitEvent "blocked" flow.id] := by
    simp [handleRequest, hhook]
  refine ⟨hall, ?_, ?_, ?_, ?_⟩
  · rw [hall]; exact List.mem_cons_self _ _
  · rw [hall]; simp
  · rw [hall]; simp
  · intro s; rw [hall]; simp

/-- C3 witness: the amended kill-not-403 behaviour on the concrete blocked
flow. -/
theorem blocked_flow_killed_no_upstream_witness :
    handleRequest interceptorEx flowEx =
        [.killFlow, .emitEvent "blocked" flowEx.id] ∧
      ProxyAction.killFlow ∈ handleRequest interceptorEx flowEx ∧
      ProxyAction.emitEvent "blocked" flowEx.id ∈
        handleRequest interceptorEx flowEx ∧
      ProxyAction.openUpstream flowEx.id ∉
        handleRequest interceptorEx flowEx ∧
      ∀ s, ProxyAction.setLocalResponse s ∉
        handleRequest interceptorEx flowEx :=
  blocked_flow_killed_no_upstream interceptorEx flowEx (Or.inl (by decide))

end NMS.Proxy

namespace NMS.DB

/-! ## Device store — `src/python/database/db_manager.py` -/

/-- A row of the `devices` table (`id` PRIMARY KEY, `mac_address` UNIQUE
NOT NULL). -/
structure DeviceRow where
  id : String
  mac_address : String
  ip_address : String
  hostname : Option String := none
  device_type : String := "unknown"
  manufacturer : Option String := none
  nickname : Option String := none
  is_monitored : Bool := true
  has_certificate : Bool := false
  first_seen : Option String := none
  last_seen : Option String := none
  total_requests : Nat := 0
  total_bytes : Nat := 0
  metadata : String := "{}"
deriving DecidableEq, Repr

/-- Embeds `add_device`'s `INSERT OR REPLACE INTO devices`: SQLite deletes every
row that conflicts on any uniqueness constraint (the `id` primary key or
the `mac_address` UNIQUE column) and inserts the new row. -/
def add_device (t : List DeviceRow) (d : DeviceRow) : List DeviceRow :=
  (t.filter (fun r => !(r.id == d.id || r.mac_address == d.mac_address)))
    ++ [d]

/-- Embeds `update_device_stats`: bump the counters and `last_seen` of the row
with the given id; no other column (in particular not `mac_address`)
changes. -/
def update_device_stats (t : List DeviceRow) (device_id : String)
    (requests bytes_transferred : Nat) (nowIso : String) : List DeviceRow :=
  t.map (fun r =>
    if r.id == device_id then
      { r with total_requests := r.total_requests + requests,
               total_bytes := r.total_bytes + bytes_transferred,
               last_seen := some nowIso }
    else r)

/-- MAC-uniqueness of the table: no two rows share a `mac_address`. -/
def macUniqueB : List DeviceRow → Bool
  | [] => true
  | r :: rest =>
      rest.all (fun s => !(s.mac_address == r.mac_address)) && macUniqueB rest

/-- The relational reading of `macUniqueB`. -/
def macNe (a b : DeviceRow) : Prop := b.mac_address ≠ a.mac_address

theorem macUniqueB_iff_pairwise :
    ∀ l : List DeviceRow, macUniqueB l = true ↔ l.Pairwise macNe
  | [] => by simp [macUniqueB]
  | r :: rest => by
    simp only [macUniqueB, Bool.and_eq_true, List.all_eq_true,
      List.pairwise_cons, macUniqueB_iff_pairwise rest]
    simp [macNe]

theorem macNe_symm : Symmetric macNe := fun _ _ h => Ne.symm h

/-- A row update that keeps `mac_address` keeps `macNe`. -/
theorem macNe_stats (device_id ts : String) (rq nb : Nat) :
    ∀ a b : DeviceRow, macNe a b →
      macNe (if a.id == device_id then
               { a with total_requests := a.total_requests + rq,
                        total_bytes := a.total_bytes + nb,
                        last_seen := some ts }
             else a)
            (if b.id == device_id then
               { b with total_requests := b.total_requests + rq,
                        total_bytes := b.total_bytes + nb,
                        last_seen := some ts }
             else b) := by
  intro a b h
  unfold macNe at *
  split <;> split <;> simpa using h

/-- C6: every device-store operation preserves uniqueness of the MAC
column — `add_device`'s `INSERT OR REPLACE` evicts any row conflicting on
`id` or on the UNIQUE `mac_address` before inserting, and
`update_device_stats` never touches `mac_address` — and in a MAC-unique
table two rows with the same address are the same row. -/
theorem device_mac_unique (t : List DeviceRow) (d : DeviceRow)
    (device_id ts : String) (rq nb : Nat) (hu : macUniqueB t = true) :
    macUniqueB (add_device t d) = true ∧
      macUniqueB (update_device_stats t device_id rq nb ts) = true ∧
      ∀ r1 ∈ t, ∀ r2 ∈ t, r1.mac_address = r2.mac_address → r1 = r2 := by
  have hp : t.Pairwise macNe := (macUniqueB_iff_pairwise t).mp hu
  refine ⟨?_, ?_, ?_⟩
  · rw [macUniqueB_iff_pairwise]
    unfold add_device
    rw [List.pairwise_append]
    refine ⟨hp.sublist (List.filter_sublist t), by simp, ?_⟩
    intro a ha b hb
    rcases List.mem_filter.mp ha with ⟨-, hpa⟩
    simp only [List.mem_singleton] at hb
    subst hb
    simp at hpa
    exact fun hmac => hpa.2 hmac.symm
  · rw [macUniqueB_iff_pairwise]
    unfold update_device_stats
    exact hp.map _ (macNe_stats device_id ts rq nb)
  · intro r1 h1 r2 h2 hmac
    by_contra hne
    exact (hp.forall macNe_symm h1 h2 hne) hmac.symm

/-- A concrete MAC-unique table and rows to instantiate the invariant. -/
def deviceTableEx : List DeviceRow :=
  [{ id := "u1", mac_address := "aa:bb:cc:dd:ee:01", ip_address := "10.0.0.2" },
   { id := "u2", mac_address := "aa:bb:cc:dd:ee:02", ip_address := "10.0.0.3" }]

/-- A fresh scan result reusing the MAC of `u1` under a new row id. -/
def deviceRowEx : DeviceRow :=
  { id := "u3", mac_address := "aa:bb:cc:dd:ee:01", ip_address := "10.0.0.9" }

/-- C6 witness: the preservation theorem instantiated on a concrete
two-row table and an insert that collides on MAC. -/
theorem device_mac_unique_witness :
    macUniqueB (add_device deviceTableEx deviceRowEx) = true ∧
      macUniqueB (update_device_stats deviceTableEx "u1" 5 1024 "t") = true ∧
      ∀ r1 ∈ deviceTableEx, ∀ r2 ∈ deviceTableEx,
        r1.mac_address = r2.mac_address → r1 = r2 :=
  device_mac_unique deviceTableEx deviceRowEx "u1" "t" 5 1024 (by decide)

end NMS.DB
